import Mathlib

/-!
Shallow embedding of `src/pgnet.py` (and the parts of `src/utils.py` it uses):
a fully convolutional network builder for TensorFlow.  Graph construction is
modelled symbolically: `TExpr` is the tensor-expression tree a builder call
returns, and `GraphState` records the graph-level variable collections
(trainable variables and the `required_vars_collection`) that the builders
populate as a side effect.  Spatial-shape bookkeeping is given a numeric
semantics (`side`, `stepSide`) mirroring TensorFlow's VALID-convolution
output-size formula.  `export_model` is modelled as a trace of framework
effects parameterised by its environment (does the output file exist, does
the checkpoint restore succeed).
-/

namespace PGNet

/-! Network constants (src/pgnet.py lines 24-42). -/

def INPUT_SIDE : Nat := 192

def INPUT_DEPTH : Nat := 3

def DOWNSAMPLING_FACTOR : Nat := 8

def KERNEL_SIDE : Nat := 3

def LAST_KERNEL_SIDE : Nat := KERNEL_SIDE

def LAST_CONV_STRIDE : Nat := 1

def FC_NEURONS : Nat := 2048

def BATCH_SIZE : Nat := 256

/-- `LEARNING_RATE = 1e-5` in the source, modelled as the exact rational. -/
def LEARNING_RATE : ℚ := 1 / 100000

def OUTPUT_TENSOR_NAME : String := "softmax_linear/out"

def REQUIRED_NON_TRAINABLES : String := "required_vars_collection"

/-- A boolean fed to `batch_norm`: either a placeholder (by name) or a
Python literal, as produced by the `train_phase is False` override in `get`. -/
inductive BoolSrc where
  | ph (name : String)
  | lit (b : Bool)
deriving DecidableEq, Repr

/-- Symbolic tensor expressions: exactly the operations the builders in
`pgnet.py` apply to the input (`tf.pad`, `tf.nn.conv2d`, bias add,
`tf.nn.relu`, `tf.contrib.layers.batch_norm`, `tf.nn.dropout`). -/
inductive TExpr where
  | input (name : String) (depth : Nat)
  | pad (amount : Nat) (x : TExpr)
  | conv2d (x : TExpr) (kernelVar : String) (kernelShape : List Nat)
      (padding : String) (strides : List Nat)
  | addBias (x : TExpr) (biasVar : String) (biasShape : List Nat)
  | relu (name : String) (x : TExpr)
  | batchNorm (x : TExpr) (isTraining : BoolSrc)
  | dropout (x : TExpr) (keepProb : String)
deriving DecidableEq, Repr

/-- Static channel count of an expression (TensorFlow's
`get_shape()[3].value`): a convolution outputs `kernel_shape[3]` channels,
every other operation here preserves the channel count. -/
def channels : TExpr → Nat
  | .input _ d => d
  | .pad _ x => channels x
  | .conv2d _ _ kshape _ _ => kshape.getD 3 0
  | .addBias x _ _ => channels x
  | .relu _ x => channels x
  | .batchNorm x _ => channels x
  | .dropout x _ => channels x

/-- Graph-level variable bookkeeping: `tf.trainable_variables()` and the
`REQUIRED_NON_TRAINABLES` collection, in creation order. -/
structure GraphState where
  trainables : List String
  requiredNonTrainables : List String
deriving DecidableEq, Repr

def emptyGraph : GraphState := ⟨[], []⟩

/-- Full variable name under a `tf.variable_scope` path. -/
def scopedName (scope : List String) (n : String) : String :=
  String.intercalate "/" (scope ++ [n])

/-- `conv_layer` (src/pgnet.py lines 46-70):
`ReLU(conv2d(x, kernels, padding, strides) + bias)`, creating the trainable
variables `kernels` and `bias` under the current scope.  The output op is
named `out`. -/
def conv_layer (scope : List String) (input_x : TExpr) (kernel_shape : List Nat)
    (padding : String) (strides : List Nat) (st : GraphState) :
    TExpr × GraphState :=
  let num_kernels := kernel_shape.getD 3 0
  let st2 : GraphState := ⟨st.trainables ++
      [scopedName scope "kernels", scopedName scope "bias"],
    st.requiredNonTrainables⟩
  (TExpr.relu (scopedName scope "out")
    (TExpr.addBias
      (TExpr.conv2d input_x (scopedName scope "kernels") kernel_shape padding strides)
      (scopedName scope "bias") [num_kernels]),
   st2)

/-- Variables created by `tf.contrib.layers.batch_norm` with
`center=True, scale=True`: `beta` and `gamma` are trainable, the moving
statistics are not; with `variables_collections=[REQUIRED_NON_TRAINABLES]`
all four are added to that collection. -/
def bnVariableNames : List String :=
  ["beta", "gamma", "moving_mean", "moving_variance"]

/-- `eq_conv_layer` (src/pgnet.py lines 74-116): pads the input by
`(kernel_side - 1) / 2` on each spatial border, applies a VALID `conv_layer`
with the given strides, then batch-normalizes, registering the
batch-normalization variables in the `REQUIRED_NON_TRAINABLES` collection. -/
def eq_conv_layer (scope : List String) (input_x : TExpr) (kernel_side : Nat)
    (num_kernels : Nat) (strides : List Nat) (is_training_ : BoolSrc)
    (st : GraphState) : TExpr × GraphState :=
  let scope := scope ++ ["eq_conv_layer"]
  let kernel_shape := [kernel_side, kernel_side, channels input_x, num_kernels]
  let pad_amount := (kernel_side - 1) / 2
  let input_padded := TExpr.pad pad_amount input_x
  let cl := conv_layer scope input_padded kernel_shape "VALID" strides st
  let bnScope := scope ++ ["BatchNorm"]
  let st2 : GraphState := ⟨cl.2.trainables ++
      [scopedName bnScope "beta", scopedName bnScope "gamma"],
    cl.2.requiredNonTrainables ++ bnVariableNames.map (scopedName bnScope)⟩
  (TExpr.batchNorm cl.1 is_training_, st2)

/-- `get` (src/pgnet.py lines 119-224): six stride-2 `eq_conv_layer` blocks
(128, 128, 256, 256, 512, 512 kernels), then the fully convolutional layers
`fc1` (kernel `LAST_KERNEL_SIDE`), `fc2` (1x1) with dropout applied only in
the train phase, then the 1x1 `softmax_linear` projection to `num_classes`
channels.  When `train_phase` is `false`, `is_training_` is overridden to
the literal `False`. -/
def get (num_classes : Nat) (images_ : TExpr) (keep_prob_ : String)
    (is_training_ : BoolSrc) (train_phase : Bool) (st : GraphState) :
    TExpr × GraphState :=
  let is_training_ := if train_phase = false then BoolSrc.lit false else is_training_
  let num_kernels := 2 ^ 7
  let r1 := eq_conv_layer [toString num_kernels, "conv1"] images_
      KERNEL_SIDE num_kernels [1, 2, 2, 1] is_training_ st
  let r2 := eq_conv_layer [toString num_kernels, "conv2"] r1.1
      KERNEL_SIDE num_kernels [1, 2, 2, 1] is_training_ r1.2
  let num_kernels := num_kernels * 2
  let r3 := eq_conv_layer [toString num_kernels, "conv3"] r2.1
      KERNEL_SIDE num_kernels [1, 2, 2, 1] is_training_ r2.2
  let r4 := eq_conv_layer [toString num_kernels, "conv4"] r3.1
      KERNEL_SIDE num_kernels [1, 2, 2, 1] is_training_ r3.2
  let num_kernels := num_kernels * 2
  let r5 := eq_conv_layer [toString num_kernels, "conv5"] r4.1
      KERNEL_SIDE num_kernels [1, 2, 2, 1] is_training_ r4.2
  let r6 := eq_conv_layer [toString num_kernels, "conv6"] r5.1
      KERNEL_SIDE num_kernels [1, 2, 2, 1] is_training_ r5.2
  let rf1 := conv_layer ["fc1"] r6.1
      [LAST_KERNEL_SIDE, LAST_KERNEL_SIDE, num_kernels, FC_NEURONS]
      "VALID" [1, 1, 1, 1] r6.2
  let dropout1 := if train_phase = false then rf1.1
      else TExpr.dropout rf1.1 keep_prob_
  let rf2 := conv_layer ["fc2"] dropout1 [1, 1, FC_NEURONS, FC_NEURONS]
      "VALID" [1, 1, 1, 1] rf1.2
  let dropout2 := if train_phase = false then rf2.1
      else TExpr.dropout rf2.1 keep_prob_
  conv_layer ["softmax_linear"] dropout2
      [1, 1, FC_NEURONS, num_classes] "VALID" [1, 1, 1, 1] rf2.2

/-- `variables_to_save` (src/pgnet.py lines 274-284): trainable variables,
then the `REQUIRED_NON_TRAINABLES` collection, then `addlist`. -/
def variables_to_save (st : GraphState) (addlist : List String) : List String :=
  st.trainables ++ st.requiredNonTrainables ++ addlist

/-- `define_model` (src/pgnet.py lines 287-315): builds the model on the
`images_` placeholder (depth `INPUT_DEPTH`) with the `keep_prob_` and
`is_training_` placeholders. -/
def define_model (num_classes : Nat) (train_phase : Bool) (st : GraphState) :
    TExpr × GraphState :=
  get num_classes (TExpr.input "images_" INPUT_DEPTH) "keep_prob_"
    (BoolSrc.ph "is_training_") train_phase st

/-- The tensor returned by `get` on a fresh input placeholder of the given
channel depth. -/
def pgnetGraph (num_classes depth : Nat) (iname keep_prob_ : String)
    (is_training_ : BoolSrc) (train_phase : Bool) (st : GraphState) : TExpr :=
  (get num_classes (TExpr.input iname depth) keep_prob_ is_training_
    train_phase st).1

/-! Analysis of the built graph: the pipeline is a linear chain, so an
expression linearises into a spine of node descriptors, innermost
(closest to the input) first. -/

/-- One node of the pipeline, with its parameters. -/
inductive GNode where
  | inputN (name : String) (depth : Nat)
  | padN (amount : Nat)
  | convN (kernelVar : String) (kernelShape : List Nat) (padding : String)
      (strides : List Nat)
  | biasN (biasVar : String) (biasShape : List Nat)
  | reluN (name : String)
  | bnN (isTraining : BoolSrc)
  | dropN (keepProb : String)
deriving DecidableEq, Repr

/-- Linearisation helper: prepend the spine of `e` to `acc`. -/
def spineAux : TExpr → List GNode → List GNode
  | .input n d, acc => .inputN n d :: acc
  | .pad a x, acc => spineAux x (.padN a :: acc)
  | .conv2d x kv ks p s, acc => spineAux x (.convN kv ks p s :: acc)
  | .addBias x bv bs, acc => spineAux x (.biasN bv bs :: acc)
  | .relu n x, acc => spineAux x (.reluN n :: acc)
  | .batchNorm x it, acc => spineAux x (.bnN it :: acc)
  | .dropout x kp, acc => spineAux x (.dropN kp :: acc)

/-- Linearisation of a tensor expression, input first. -/
def spine (e : TExpr) : List GNode := spineAux e []

/-- The `eq_conv_layer` blocks of a pipeline: maximal runs
pad, conv, bias, relu, batch-norm, reported as
(pad amount, kernel shape, strides) in pipeline order. -/
def eqConvBlocks : List GNode → List (Nat × List Nat × List Nat)
  | .padN a :: .convN _ ks _ s :: .biasN _ _ :: .reluN _ :: .bnN _ :: rest =>
      (a, ks, s) :: eqConvBlocks rest
  | _ :: rest => eqConvBlocks rest
  | [] => []

/-- Every convolution of a pipeline: (kernel shape, padding, strides). -/
def convsOf (e : TExpr) : List (List Nat × String × List Nat) :=
  (spine e).filterMap fun nd =>
    match nd with
    | .convN _ ks p s => some (ks, p, s)
    | _ => none

/-- The keep-probability placeholders of the dropout nodes of a pipeline. -/
def dropoutsOf (e : TExpr) : List String :=
  (spine e).filterMap fun nd =>
    match nd with
    | .dropN kp => some kp
    | _ => none

/-- The pad amounts appearing in a pipeline. -/
def padAmounts (e : TExpr) : List Nat :=
  (spine e).filterMap fun nd =>
    match nd with
    | .padN a => some a
    | _ => none

def isBnN : GNode → Bool
  | .bnN _ => true
  | _ => false

def isPadN : GNode → Bool
  | .padN _ => true
  | _ => false

/-- The outermost `conv_layer` of a pipeline: the name of its ReLU output
and its convolution's (kernel shape, padding, strides). -/
def headConv : TExpr → Option (String × List Nat × String × List Nat)
  | .relu n (.addBias (.conv2d _ _ ks p s) _ _) => some (n, ks, p, s)
  | _ => none

/-! Spatial-size semantics.  Every convolution built by this model is VALID
(`eq_conv_layer` pads explicitly first), so a convolution with kernel side
`k` and stride `s` maps spatial side `n` to `(n - k) / s + 1`
(TensorFlow's `ceil((n - k + 1) / s)` for `n ≥ k`); padding by `a` adds
`2 * a`; every other node preserves the spatial side. -/

/-- Spatial side after one node. -/
def stepSide (s : Nat) : GNode → Nat
  | .padN a => s + 2 * a
  | .convN _ ks _ strides => (s - ks.getD 0 0) / strides.getD 1 1 + 1
  | _ => s

/-- Spatial side of an expression, given the input's spatial side. -/
def side (s : Nat) (e : TExpr) : Nat :=
  (spine e).foldl stepSide s

/-- The spatial sides measured just after each node satisfying `p`. -/
def sidesAt (p : GNode → Bool) (s : Nat) : List GNode → List Nat
  | [] => []
  | nd :: rest =>
      let s2 := stepSide s nd
      if p nd then s2 :: sidesAt p s2 rest else sidesAt p s2 rest

/-- Every convolution of the pipeline sees an input at least as large as
its kernel (so TensorFlow's VALID convolution is defined and nonempty). -/
def convFits (s : Nat) : List GNode → Bool
  | [] => true
  | nd :: rest =>
      (match nd with
       | .convN _ ks _ _ => decide (ks.getD 0 0 ≤ s)
       | _ => true)
      && convFits (stepSide s nd) rest

/-! `loss` and `train` (src/pgnet.py lines 227-271). -/

/-- Symbolic expressions for the loss pipeline. -/
inductive LExpr where
  | logitsIn
  | labelsIn
  | squeeze (dims : List Nat) (x : LExpr)
  | castInt64 (x : LExpr)
  | sparseSoftmaxCrossEntropy (logits labels : LExpr)
  | reduceMean (x : LExpr)
deriving DecidableEq, Repr

/-- `loss(logits, labels)`: squeeze spatial dims 1 and 2 of the logits,
cast the labels to int64, take the sparse softmax cross-entropy per
example, and return its mean over the batch. -/
def loss (logits labels : LExpr) : LExpr :=
  let logits := LExpr.squeeze [1, 2] logits
  let labels := LExpr.castInt64 labels
  let cross_entropy := LExpr.sparseSoftmaxCrossEntropy logits labels
  LExpr.reduceMean cross_entropy

/-- Shape semantics of `tf.squeeze(x, dims)`: drop the listed axes. -/
def squeezeShape (dims : List Nat) (shape : List Nat) : List Nat :=
  shape.enum.filterMap fun p => if p.1 ∈ dims then none else some p.2

/-- The training op returned by `train`: which optimizer, its learning
rate, the loss it minimizes, and the global-step variable it increments
by 1 per step (the semantics of `minimize(..., global_step)`). -/
structure TrainOp where
  optimizer : String
  learningRate : ℚ
  target : LExpr
  globalStep : String
  stepIncrement : Nat
deriving DecidableEq, Repr

/-- `train(loss_op, global_step)`: an Adam optimizer step at
`LEARNING_RATE` minimizing `loss_op` and incrementing `global_step`. -/
def train (loss_op : LExpr) (global_step : String) : TrainOp :=
  ⟨"Adam", LEARNING_RATE, loss_op, global_step, 1⟩

/-! `export_model` (src/pgnet.py lines 318-368), modelled as a trace of
framework effects.  The environment is abstracted by two booleans: whether
`model_filename` already exists on disk, and whether `saver.restore`
succeeds (raises no `ValueError`). -/

inductive ExportStep where
  | defineModelStep (num_classes : Nat) (train_phase : Bool)
  | createSaver
  | restoreSession (path : String)
  | writeGraph (dir filename : String) (asText : Bool)
  | freezeGraph (inputGraph inputSaver : String) (inputBinary : Bool)
      (inputCheckpoint outputNodeNames restoreOpName filenameTensorName
        outputGraph : String) (clearDevices : Bool) (initializerNodes : String)
  | printSkip (filename : String)
  | printRestoreError
deriving DecidableEq, Repr

/-- `export_model(num_classes, session_dir, input_checkpoint,
model_filename)`: result value (`none` models Python's implicit `None`)
and the trace of effects performed, in order. -/
def export_model (num_classes : Nat)
    (session_dir input_checkpoint model_filename : String)
    (model_file_exists restore_ok : Bool) : Option Int × List ExportStep :=
  if model_file_exists = false then
    let steps := [ExportStep.defineModelStep num_classes false,
                  ExportStep.createSaver,
                  ExportStep.restoreSession (session_dir ++ "/" ++ input_checkpoint)]
    if restore_ok = false then
      (some (-1), steps ++ [ExportStep.printRestoreError])
    else
      (none, steps ++
        [ExportStep.writeGraph session_dir "skeleton.pbtxt" true,
         ExportStep.freezeGraph (session_dir ++ "/skeleton.pbtxt") "" false
           (session_dir ++ "/" ++ input_checkpoint) OUTPUT_TENSOR_NAME
           "save/restore_all" "save/Const:0" model_filename true ""])
  else
    (none, [ExportStep.printSkip model_filename])

/-- Does a trace write any file (graph skeleton or frozen model)? -/
def writesFiles : List ExportStep → Bool
  | [] => false
  | .writeGraph _ _ _ :: _ => true
  | .freezeGraph _ _ _ _ _ _ _ _ _ _ :: _ => true
  | _ :: rest => writesFiles rest

/-- Does a trace construct a graph or restore a session? -/
def buildsOrRestores : List ExportStep → Bool
  | [] => false
  | .defineModelStep _ _ :: _ => true
  | .restoreSession _ :: _ => true
  | _ :: rest => buildsOrRestores rest

/-- The convolutions of a pipeline as (kernel side, incoming spatial side)
pairs: TensorFlow's VALID convolution requires the kernel to fit, i.e.
`kernel side ≤ incoming side`, at every one of them. -/
def convChecks (s : Nat) : List GNode → List (Nat × Nat)
  | [] => []
  | nd :: rest =>
      match nd with
      | .convN _ ks _ _ => (ks.getD 0 0, s) :: convChecks (stepSide s nd) rest
      | _ => convChecks (stepSide s nd) rest

/-- Every convolution of the pipeline receives an input at least as large
as its kernel. -/
def convChecksOk (s : Nat) (l : List GNode) : Bool :=
  (convChecks s l).all fun p => decide (p.1 ≤ p.2)

/-! Theorems settling the claims. -/

/-- Spatial side of the inference graph as a function of the input's
spatial side: each of the six blocks pads by 1 then convolves 3x3 with
stride 2; `fc1` convolves 3x3 stride 1; `fc2` and the projection are 1x1. -/
theorem side_get_eq (n d s : Nat) (iname kp : String) (it : BoolSrc)
    (st : GraphState) :
    side s (pgnetGraph n d iname kp it false st) =
      ((((((((((s + 2 - 3) / 2 + 1 + 2 - 3) / 2 + 1 + 2 - 3) / 2 + 1 + 2 - 3)
        / 2 + 1 + 2 - 3) / 2 + 1 + 2 - 3) / 2 + 1 - 3) / 1 + 1 - 1) / 1 + 1 - 1)
        / 1 + 1) := rfl

/-- The kernel-fit obligations of the inference graph as a function of the
input's spatial side. -/
theorem convChecks_get_eq (n d s : Nat) (iname kp : String) (it : BoolSrc)
    (st : GraphState) :
    convChecks s (spine (pgnetGraph n d iname kp it false st)) =
      [(3, s + 2),
       (3, (s + 2 - 3) / 2 + 1 + 2),
       (3, ((s + 2 - 3) / 2 + 1 + 2 - 3) / 2 + 1 + 2),
       (3, (((s + 2 - 3) / 2 + 1 + 2 - 3) / 2 + 1 + 2 - 3) / 2 + 1 + 2),
       (3, ((((s + 2 - 3) / 2 + 1 + 2 - 3) / 2 + 1 + 2 - 3) / 2 + 1 + 2 - 3)
         / 2 + 1 + 2),
       (3, (((((s + 2 - 3) / 2 + 1 + 2 - 3) / 2 + 1 + 2 - 3) / 2 + 1 + 2 - 3)
         / 2 + 1 + 2 - 3) / 2 + 1 + 2),
       (3, ((((((s + 2 - 3) / 2 + 1 + 2 - 3) / 2 + 1 + 2 - 3) / 2 + 1 + 2 - 3)
         / 2 + 1 + 2 - 3) / 2 + 1 + 2 - 3) / 2 + 1),
       (1, (((((((s + 2 - 3) / 2 + 1 + 2 - 3) / 2 + 1 + 2 - 3) / 2 + 1 + 2 - 3)
         / 2 + 1 + 2 - 3) / 2 + 1 + 2 - 3) / 2 + 1 - 3) / 1 + 1),
       (1, ((((((((s + 2 - 3) / 2 + 1 + 2 - 3) / 2 + 1 + 2 - 3) / 2 + 1 + 2 - 3)
         / 2 + 1 + 2 - 3) / 2 + 1 + 2 - 3) / 2 + 1 - 3) / 1 + 1 - 1) / 1 + 1)]
  := rfl

/-- C1: for every `num_classes` and input placeholder, the graph built by
`get` applies to the input exactly six `eq_conv_layer`
convolution+batch-normalization blocks in sequence, each padding by 1 and
convolving with stride `[1, 2, 2, 1]`, with the kernel count doubling every
two blocks: blocks 1-2 use 128 kernels, 3-4 use 256, 5-6 use 512; and the
graph contains exactly six batch-normalization nodes. -/
theorem C1_six_eq_conv_blocks (n d : Nat) (iname kp : String) (it : BoolSrc)
    (tp : Bool) (st : GraphState) :
    eqConvBlocks (spine (pgnetGraph n d iname kp it tp st)) =
      [(1, [3, 3, d, 128], [1, 2, 2, 1]),
       (1, [3, 3, 128, 128], [1, 2, 2, 1]),
       (1, [3, 3, 128, 256], [1, 2, 2, 1]),
       (1, [3, 3, 256, 256], [1, 2, 2, 1]),
       (1, [3, 3, 256, 512], [1, 2, 2, 1]),
       (1, [3, 3, 512, 512], [1, 2, 2, 1])] ∧
    (spine (pgnetGraph n d iname kp it tp st)).countP isBnN = 6 := by
  cases tp <;> exact ⟨rfl, rfl⟩

/-- C2 counterexample: the claim says the two dense blocks `fc1` and `fc2`
both have 1x1 convolution kernels, but `fc1` (the seventh convolution of
the pipeline) has kernel shape `[3, 3, 512, 2048]`: its kernel side is
`LAST_KERNEL_SIDE = 3`, not 1. -/
theorem C2_counterexample_fc1_kernel :
    ((convsOf (pgnetGraph 10 3 "images_" "keep_prob_"
        (BoolSrc.ph "is_training_") false emptyGraph)).getD 6 ([], "", [])).1 =
      [3, 3, 512, 2048] ∧
    ¬ (((convsOf (pgnetGraph 10 3 "images_" "keep_prob_"
        (BoolSrc.ph "is_training_") false emptyGraph)).getD 6
          ([], "", [])).1.take 2 = [1, 1]) := by
  decide

/-- C2 amended: the sixth block's output is fed through exactly two
fully-convolutional dense blocks before the final projection: `fc1` with a
`LAST_KERNEL_SIDE` x `LAST_KERNEL_SIDE` (3x3) kernel and `fc2` with a 1x1
kernel, each mapping to `FC_NEURONS = 2048` channels with VALID padding and
stride `[1, 1, 1, 1]` (the convolution list of the whole pipeline is the
six blocks, then `fc1`, `fc2` and the projection). -/
theorem C2_amended_dense_blocks (n d : Nat) (iname kp : String) (it : BoolSrc)
    (tp : Bool) (st : GraphState) :
    convsOf (pgnetGraph n d iname kp it tp st) =
      [([3, 3, d, 128], "VALID", [1, 2, 2, 1]),
       ([3, 3, 128, 128], "VALID", [1, 2, 2, 1]),
       ([3, 3, 128, 256], "VALID", [1, 2, 2, 1]),
       ([3, 3, 256, 256], "VALID", [1, 2, 2, 1]),
       ([3, 3, 256, 512], "VALID", [1, 2, 2, 1]),
       ([3, 3, 512, 512], "VALID", [1, 2, 2, 1]),
       ([LAST_KERNEL_SIDE, LAST_KERNEL_SIDE, 512, FC_NEURONS], "VALID", [1, 1, 1, 1]),
       ([1, 1, FC_NEURONS, FC_NEURONS], "VALID", [1, 1, 1, 1]),
       ([1, 1, FC_NEURONS, n], "VALID", [1, 1, 1, 1])] ∧
    LAST_KERNEL_SIDE = 3 ∧ FC_NEURONS = 2048 := by
  cases tp <;> exact ⟨rfl, rfl, rfl⟩

/-- C5: the last layer of the graph built by `get` is a 1x1 VALID
convolution with stride `[1, 1, 1, 1]` projecting `FC_NEURONS = 2048`
channels to `num_classes` channels, its output op is named
`softmax_linear/out` (= `OUTPUT_TENSOR_NAME`), and this tensor is the one
`get` returns (it is the head of the returned expression). -/
theorem C5_final_projection (n d : Nat) (iname kp : String) (it : BoolSrc)
    (tp : Bool) (st : GraphState) :
    headConv (pgnetGraph n d iname kp it tp st) =
      some (OUTPUT_TENSOR_NAME, [1, 1, FC_NEURONS, n], "VALID", [1, 1, 1, 1]) ∧
    channels (pgnetGraph n d iname kp it tp st) = n ∧
    OUTPUT_TENSOR_NAME = "softmax_linear/out" ∧ FC_NEURONS = 2048 := by
  cases tp <;> exact ⟨rfl, rfl, rfl, rfl⟩

/-- C8: when `train_phase` is `false`, the result of `get` (both the built
tensor and the graph state) is independent of the `keep_prob_` and
`is_training_` arguments, and the built pipeline contains no dropout node:
`is_training_` is overridden to the literal `False` and both dropout
applications are bypassed. -/
theorem C8_inference_independent_of_placeholders (n : Nat) (images_ : TExpr)
    (kp1 kp2 : String) (it1 it2 : BoolSrc) (st : GraphState)
    (d : Nat) (iname : String) :
    get n images_ kp1 it1 false st = get n images_ kp2 it2 false st ∧
    dropoutsOf (pgnetGraph n d iname kp1 it1 false st) = [] :=
  ⟨rfl, rfl⟩

/-- C3: `eq_conv_layer` implements same padding by explicit zero padding
followed by a VALID convolution: for an odd kernel side `k = 2m + 1` it
pads each spatial border by `(k - 1) / 2`, so the padded (convolved) extent
of a side-`s` input is `s + k - 1`; hence with stride 1 the output side
equals `s`, with stride 2 and even `s` it is `s / 2`, and on a 192-wide
input the six stride-2 blocks of `get` yield sides 96, 48, 24, 12, 6, 3. -/
theorem C3_same_padding_arithmetic (k m s d nk stride : Nat) (iname : String)
    (it : BoolSrc) (st : GraphState) (hk : k = 2 * m + 1) (hs : 1 ≤ s) :
    padAmounts ((eq_conv_layer [] (TExpr.input iname d) k nk
        [1, stride, stride, 1] it st).1) = [(k - 1) / 2] ∧
    sidesAt isPadN s (spine ((eq_conv_layer [] (TExpr.input iname d) k nk
        [1, stride, stride, 1] it st).1)) = [s + k - 1] ∧
    (stride = 1 → side s ((eq_conv_layer [] (TExpr.input iname d) k nk
        [1, stride, stride, 1] it st).1) = s) ∧
    (stride = 2 → 2 ∣ s → side s ((eq_conv_layer [] (TExpr.input iname d) k nk
        [1, stride, stride, 1] it st).1) = s / 2) ∧
    sidesAt isBnN 192 (spine (pgnetGraph 10 3 "images_" "keep_prob_"
        (BoolSrc.ph "is_training_") false emptyGraph)) = [96, 48, 24, 12, 6, 3]
    := by
  subst hk
  refine ⟨rfl, ?_, ?_, ?_, by decide⟩
  · show [s + 2 * ((2 * m + 1 - 1) / 2)] = [s + (2 * m + 1) - 1]
    congr 1
    omega
  · intro h
    subst h
    show (s + 2 * ((2 * m + 1 - 1) / 2) - (2 * m + 1)) / 1 + 1 = s
    omega
  · intro h hdvd
    subst h
    show (s + 2 * ((2 * m + 1 - 1) / 2) - (2 * m + 1)) / 2 + 1 = s / 2
    omega

/-- Witness for C3 at `k = 3`, `m = 1`, `s = 192`, `stride = 2`. -/
theorem C3_same_padding_arithmetic_witness :
    (3 = 2 * 1 + 1 ∧ 1 ≤ 192) ∧
    (padAmounts ((eq_conv_layer [] (TExpr.input "images_" 3) 3 128
        [1, 2, 2, 1] (BoolSrc.ph "is_training_") emptyGraph).1) = [(3 - 1) / 2] ∧
     sidesAt isPadN 192 (spine ((eq_conv_layer [] (TExpr.input "images_" 3) 3 128
        [1, 2, 2, 1] (BoolSrc.ph "is_training_") emptyGraph).1)) = [192 + 3 - 1] ∧
     (2 = 1 → side 192 ((eq_conv_layer [] (TExpr.input "images_" 3) 3 128
        [1, 2, 2, 1] (BoolSrc.ph "is_training_") emptyGraph).1) = 192) ∧
     (2 = 2 → 2 ∣ 192 → side 192 ((eq_conv_layer [] (TExpr.input "images_" 3) 3 128
        [1, 2, 2, 1] (BoolSrc.ph "is_training_") emptyGraph).1) = 192 / 2) ∧
     sidesAt isBnN 192 (spine (pgnetGraph 10 3 "images_" "keep_prob_"
        (BoolSrc.ph "is_training_") false emptyGraph)) = [96, 48, 24, 12, 6, 3]) :=
  ⟨⟨rfl, by decide⟩,
   C3_same_padding_arithmetic 3 1 192 3 128 2 "images_"
     (BoolSrc.ph "is_training_") emptyGraph rfl (by decide)⟩

/-- C7: the network built by `get` is fully convolutional: on an input
placeholder of any channel depth and any spatial side `s` large enough for
the convolutions (every kernel fits at every layer as soon as `129 ≤ s`),
it produces a spatial map with `num_classes` channels and at least one
spatial cell, degenerating to spatial size 1x1 when `s` is the 192-pixel
training size `INPUT_SIDE`. -/
theorem C7_fully_convolutional (n d s : Nat) (iname kp : String)
    (it : BoolSrc) (st : GraphState) (hs : 129 ≤ s) :
    channels (pgnetGraph n d iname kp it false st) = n ∧
    convChecksOk s (spine (pgnetGraph n d iname kp it false st)) = true ∧
    1 ≤ side s (pgnetGraph n d iname kp it false st) ∧
    (s = INPUT_SIDE → side s (pgnetGraph n d iname kp it false st) = 1) := by
  refine ⟨rfl, ?_, ?_, ?_⟩
  · show (convChecks s (spine (pgnetGraph n d iname kp it false st))).all
      (fun p => decide (p.1 ≤ p.2)) = true
    rw [convChecks_get_eq]
    simp only [List.all_cons, List.all_nil, Bool.and_eq_true,
      decide_eq_true_eq, and_true]
    omega
  · rw [side_get_eq]
    omega
  · intro h
    subst h
    rw [side_get_eq]
    decide

/-- Witness for C7 at `s = 192`, `num_classes = 7`, depth 3. -/
theorem C7_fully_convolutional_witness :
    129 ≤ 192 ∧
    (channels (pgnetGraph 7 3 "images_" "keep_prob_"
        (BoolSrc.ph "is_training_") false emptyGraph) = 7 ∧
     convChecksOk 192 (spine (pgnetGraph 7 3 "images_" "keep_prob_"
        (BoolSrc.ph "is_training_") false emptyGraph)) = true ∧
     1 ≤ side 192 (pgnetGraph 7 3 "images_" "keep_prob_"
        (BoolSrc.ph "is_training_") false emptyGraph) ∧
     (192 = INPUT_SIDE → side 192 (pgnetGraph 7 3 "images_" "keep_prob_"
        (BoolSrc.ph "is_training_") false emptyGraph) = 1)) :=
  ⟨by decide,
   C7_fully_convolutional 7 3 192 "images_" "keep_prob_"
     (BoolSrc.ph "is_training_") emptyGraph (by decide)⟩

/-- C4: when the frozen model file does not already exist and the
checkpoint restore succeeds, `export_model` performs exactly, in order:
define the inference model (train phase off), create a saver, restore the
session from `session_dir/input_checkpoint`, write the graph definition
`skeleton.pbtxt` to `session_dir` as text, then invoke the freezing
utility on that skeleton and checkpoint to produce `model_filename`;
it returns `None`. -/
theorem C4_export_sequence (n : Nat)
    (session_dir input_checkpoint model_filename : String) :
    export_model n session_dir input_checkpoint model_filename false true =
      (none,
       [ExportStep.defineModelStep n false,
        ExportStep.createSaver,
        ExportStep.restoreSession (session_dir ++ "/" ++ input_checkpoint),
        ExportStep.writeGraph session_dir "skeleton.pbtxt" true,
        ExportStep.freezeGraph (session_dir ++ "/skeleton.pbtxt") "" false
          (session_dir ++ "/" ++ input_checkpoint) OUTPUT_TENSOR_NAME
          "save/restore_all" "save/Const:0" model_filename true ""]) := rfl

/-- C9: `export_model` changes nothing when its work is done or on error:
if the model file already exists it only prints a skip message and returns
`None` (no graph construction, no restore, no file writes); if the restore
raises `ValueError` it prints an error and returns `-1` without writing
`skeleton.pbtxt` or invoking the freezing utility. -/
theorem C9_export_error_handling (n : Nat) (sd ck mf : String) (r : Bool) :
    export_model n sd ck mf true r = (none, [ExportStep.printSkip mf]) ∧
    buildsOrRestores (export_model n sd ck mf true r).2 = false ∧
    writesFiles (export_model n sd ck mf true r).2 = false ∧
    export_model n sd ck mf false false =
      (some (-1),
       [ExportStep.defineModelStep n false, ExportStep.createSaver,
        ExportStep.restoreSession (sd ++ "/" ++ ck),
        ExportStep.printRestoreError]) ∧
    writesFiles (export_model n sd ck mf false false).2 = false :=
  ⟨rfl, rfl, rfl, rfl, rfl⟩

/-- C6: `loss` squeezes the two spatial dimensions of the logits (axes 1
and 2, so a `[b, 1, 1, c]` logits shape becomes `[b, c]`), casts the labels
to int64, and returns the mean over the batch of the sparse softmax
cross-entropy; `train` returns an Adam-optimizer step with learning rate
`1e-5` minimizing that loss and incrementing `global_step` by 1. -/
theorem C6_loss_and_train (logits labels loss_op : LExpr)
    (global_step : String) (b c : Nat) :
    loss logits labels =
      LExpr.reduceMean
        (LExpr.sparseSoftmaxCrossEntropy (LExpr.squeeze [1, 2] logits)
          (LExpr.castInt64 labels)) ∧
    squeezeShape [1, 2] [b, 1, 1, c] = [b, c] ∧
    train loss_op global_step = ⟨"Adam", LEARNING_RATE, loss_op, global_step, 1⟩ ∧
    LEARNING_RATE = 1 / 100000 :=
  ⟨rfl, rfl, rfl, rfl⟩

/-- C10: every `eq_conv_layer` registers the batch-normalization moving
statistics (`moving_mean`, `moving_variance`) in the
`REQUIRED_NON_TRAINABLES` collection; `variables_to_save addlist` is
exactly the trainable variables followed by that collection followed by
`addlist`; hence both statistics appear among the variables saved after the
layer is built. -/
theorem C10_bn_statistics_saved (scope : List String) (x : TExpr) (k nk : Nat)
    (strides : List Nat) (it : BoolSrc) (st : GraphState)
    (addlist : List String) :
    scopedName (scope ++ ["eq_conv_layer", "BatchNorm"]) "moving_mean" ∈
      (eq_conv_layer scope x k nk strides it st).2.requiredNonTrainables ∧
    scopedName (scope ++ ["eq_conv_layer", "BatchNorm"]) "moving_variance" ∈
      (eq_conv_layer scope x k nk strides it st).2.requiredNonTrainables ∧
    variables_to_save st addlist =
      st.trainables ++ st.requiredNonTrainables ++ addlist ∧
    scopedName (scope ++ ["eq_conv_layer", "BatchNorm"]) "moving_mean" ∈
      variables_to_save (eq_conv_layer scope x k nk strides it st).2 addlist ∧
    scopedName (scope ++ ["eq_conv_layer", "BatchNorm"]) "moving_variance" ∈
      variables_to_save (eq_conv_layer scope x k nk strides it st).2 addlist := by
  refine ⟨?_, ?_, rfl, ?_, ?_⟩ <;>
    simp [eq_conv_layer, conv_layer, variables_to_save, bnVariableNames]

end PGNet
